import Mathlib

/-!
Shallow embedding of the consumption-forecasting core of `app/recommendation_service.py`
(the ah-api repository), together with proofs about it.

Modelling conventions:
* Python floats and datetimes are modelled by rationals (`ℚ`); a datetime is a
  rational number of days since an arbitrary epoch, so the source expression
  `(b - a).total_seconds() / 86400` becomes `b - a`.
* `math.exp(-decay_rate * days_ago)` is transcendental, so the estimator is
  parametrised by an abstract weight function `w : ℚ → ℚ` standing for
  `fun days_ago => exp (-decay_rate * days_ago)`; the real weight function is
  strictly positive, which is the only property any proof below may use of it.
* Python's `round(x, n)` and `"{:.nf}".format` round half to even
  (`bankersRound` below).
* `sorted(xs, key=...)` / `list.sort(key=...)` are stable sorts; they are
  modelled by `List.insertionSort` with the non-strict key order, which is a
  stable sort producing the same result.
* The SQL query inside `get_product_purchase_history` (join, `ilike` filter,
  `ORDER BY product_name, transaction_moment`) runs in the database, outside
  the Python logic; the embedding takes the resulting rows as input.
-/

namespace AhApi

/-- Round half to even on `ℚ`, the rounding used by Python's builtin `round`
and by `str.format` fixed-point formatting. -/
def bankersRound (q : ℚ) : ℤ :=
  if Int.fract q = 1/2 then (if 2 ∣ ⌊q⌋ then ⌊q⌋ else ⌊q⌋ + 1) else round q

/-- Python's `round(q, ndigits)` on rationals. -/
def pyround (ndigits : ℕ) (q : ℚ) : ℚ :=
  (bankersRound (q * 10 ^ ndigits) : ℚ) / 10 ^ ndigits

/-- Python's `statistics.median`: sort, take the middle element (odd length)
or the mean of the two middle elements (even length).  The source only calls
it on non-empty lists; we return 0 on `[]` to stay total. -/
def pymedian (l : List ℚ) : ℚ :=
  let s := l.insertionSort (· ≤ ·)
  let n := s.length
  if n % 2 = 1 then s.getD (n / 2) 0
  else (s.getD (n / 2 - 1) 0 + s.getD (n / 2) 0) / 2

/-- `app/recommendation_models.py`: `PurchaseEvent`.  `date` is a timestamp in
days (see module docstring); `quantity` and `unit_price` are floats in the
source. -/
structure PurchaseEvent where
  date : ℚ
  quantity : ℚ
  unit_price : Option ℚ
  receipt_id : String
  product_id : Option String
deriving DecidableEq, Repr

/-- Key order used by `sorted(purchases, key=lambda p: p.date)`. -/
def dateLE (a b : PurchaseEvent) : Prop := a.date ≤ b.date

instance : DecidableRel dateLE := fun a b => inferInstanceAs (Decidable (a.date ≤ b.date))

/-- Stand-in for `sorted_purchases[-1]` so the embedding is total; the source
raises `IndexError` on an empty list (a caller-contract violation), and every
theorem below assumes a non-empty event list. -/
def defaultEvent : PurchaseEvent :=
  { date := 0, quantity := 0, unit_price := none, receipt_id := "", product_id := none }

/-- `app/recommendation_models.py`: `ProductConsumptionPattern`. -/
structure ProductConsumptionPattern where
  product_name : String
  product_id : Option String
  purchase_count : ℕ
  total_quantity_purchased : ℚ
  median_quantity_per_purchase : ℚ
  median_interval_days : ℚ
  weighted_avg_interval_days : ℚ
  consumption_rate_per_day : ℚ
  last_purchase_date : ℚ
  days_since_last_purchase : ℚ
  estimated_inventory : ℚ
  days_until_needed : ℚ
  median_price : ℚ
  confidence : ℚ
deriving DecidableEq, Repr

/-- `calculate_confidence` from `app/recommendation_service.py`. -/
def calculate_confidence (purchase_count : ℕ) (median_interval days_since_last : ℚ) : ℚ :=
  let count_factor := min 1 ((purchase_count : ℚ) / 10)
  let recency_factor :=
    if median_interval > 0 then
      let recency_quotient := days_since_last / median_interval
      if recency_quotient > 1 then max 0 (1 - (recency_quotient - 1) * (3/10)) else 1
    else (1/2 : ℚ)
  let confidence := count_factor * recency_factor * (9/10)
  pyround 2 (max 0 (min 1 confidence))

/-- Body of `calculate_consumption_pattern` after its first step
`sorted_purchases = sorted(purchases, key=lambda p: p.date)`; `w` abstracts
`lambda days_ago: math.exp(-decay_rate * days_ago)` (see module docstring). -/
def consumption_pattern_of_sorted (w : ℚ → ℚ) (product_name : String)
    (sorted_purchases : List PurchaseEvent) (now : ℚ) : ProductConsumptionPattern :=
  let product_id := match sorted_purchases.getLast? with
    | some p => p.product_id
    | none => none
  let purchase_count := sorted_purchases.length
  let quantities := sorted_purchases.map (fun p => p.quantity)
  let total_quantity := quantities.sum
  let median_quantity := if quantities.isEmpty then 0 else pymedian quantities
  let prices := sorted_purchases.filterMap (fun p => p.unit_price)
  let median_price := if prices.isEmpty then 0 else pymedian prices
  let intervals := (sorted_purchases.zip sorted_purchases.tail).map
    (fun pr => (pr.2.date - pr.1.date, w (now - pr.2.date)))
  let wm :=
    if intervals.isEmpty then
      let last_date := (sorted_purchases.getLastD defaultEvent).date
      let days_since := now - last_date
      (max days_since 7, max days_since 7)
    else
      let weighted_sum := (intervals.map (fun iw => iw.1 * iw.2)).sum
      let weight_sum := (intervals.map (fun iw => iw.2)).sum
      let weighted_avg_interval := if weight_sum > 0 then weighted_sum / weight_sum else 0
      let median_interval := pymedian (intervals.map (fun iw => iw.1))
      (weighted_avg_interval, median_interval)
  let weighted_avg_interval := wm.1
  let median_interval := wm.2
  let consumption_rate :=
    if weighted_avg_interval > 0 then median_quantity / weighted_avg_interval else 0
  let last_purchase := sorted_purchases.getLastD defaultEvent
  let days_since_last := now - last_purchase.date
  let estimated_inventory := max 0 (median_quantity - days_since_last * consumption_rate)
  let days_until_needed :=
    if consumption_rate > 0 then min 9999 (estimated_inventory / consumption_rate)
    else (9999 : ℚ)
  let confidence := calculate_confidence purchase_count median_interval days_since_last
  { product_name := product_name
    product_id := product_id
    purchase_count := purchase_count
    total_quantity_purchased := total_quantity
    median_quantity_per_purchase := median_quantity
    median_interval_days := median_interval
    weighted_avg_interval_days := weighted_avg_interval
    consumption_rate_per_day := consumption_rate
    last_purchase_date := last_purchase.date
    days_since_last_purchase := days_since_last
    estimated_inventory := estimated_inventory
    days_until_needed := days_until_needed
    median_price := median_price
    confidence := confidence }

/-- `calculate_consumption_pattern` from `app/recommendation_service.py`. -/
def calculate_consumption_pattern (w : ℚ → ℚ) (product_name : String)
    (purchases : List PurchaseEvent) (now : ℚ) : ProductConsumptionPattern :=
  consumption_pattern_of_sorted w product_name (purchases.insertionSort dateLE) now

/-- `should_include_product` from `app/recommendation_service.py`. -/
def should_include_product (pattern : ProductConsumptionPattern) (min_purchases : ℕ)
    (max_avg_interval max_days_since_last : ℚ) : Bool :=
  if pattern.purchase_count < min_purchases then false
  else if pattern.median_interval_days > max_avg_interval then false
  else if pattern.days_since_last_purchase > max_days_since_last then false
  else true

/-- One row of the query result consumed by `get_product_purchase_history`
(receipt line item joined with its receipt). -/
structure ReceiptRow where
  product_name : String
  product_id : Option String
  quantity : Option ℚ
  unit_price : Option ℚ
  receipt_id : String
  transaction_moment : ℚ
deriving DecidableEq, Repr

/-- The `PurchaseEvent(...)` construction inside `get_product_purchase_history`;
`row.quantity or 1.0` maps a missing (`None`) or zero quantity to `1.0`
(Python truthiness: `None` and `0` are falsy). -/
def rowEvent (row : ReceiptRow) : PurchaseEvent :=
  { date := row.transaction_moment
    quantity := match row.quantity with
      | none => 1
      | some q => if q = 0 then 1 else q
    unit_price := row.unit_price
    receipt_id := row.receipt_id
    product_id := row.product_id }

/-- One step of the grouping loop in `get_product_purchase_history`: append the
row's event to its product's list, inserting the product at the end on first
occurrence (Python dict insertion order). -/
def addRowToProducts (products : List (String × List PurchaseEvent)) (row : ReceiptRow) :
    List (String × List PurchaseEvent) :=
  if products.any (fun kv => kv.1 = row.product_name) then
    products.map (fun kv =>
      if kv.1 = row.product_name then (kv.1, kv.2 ++ [rowEvent row]) else kv)
  else
    products ++ [(row.product_name, [rowEvent row])]

/-- `get_product_purchase_history` from `app/recommendation_service.py`,
applied to the rows returned by its query (see module docstring). -/
def get_product_purchase_history (results : List ReceiptRow) (min_purchases : ℕ) :
    List (String × List PurchaseEvent) :=
  let products := results.foldl addRowToProducts []
  if min_purchases > 1 then products.filter (fun kv => kv.2.length ≥ min_purchases)
  else products

/-- Key order used by `patterns.sort(key=lambda p: p.days_until_needed)`. -/
def needLE (a b : ProductConsumptionPattern) : Prop :=
  a.days_until_needed ≤ b.days_until_needed

instance : DecidableRel needLE := fun a b =>
  inferInstanceAs (Decidable (a.days_until_needed ≤ b.days_until_needed))

/-- `app/recommendation_models.py`: `ConsumptionPatternsResponse` (without the
constant `filter_criteria` echo dict). -/
structure ConsumptionPatternsResponse where
  generated_at : ℚ
  products : List ProductConsumptionPattern
  total_products_analyzed : ℕ
  products_filtered_out : ℕ
deriving Repr

/-- `get_consumption_patterns` from `app/recommendation_service.py`: group the
rows, estimate a pattern per product, partition by `should_include_product`
(counting rejections), and sort the kept patterns by `days_until_needed`. -/
def get_consumption_patterns (w : ℚ → ℚ) (rows : List ReceiptRow) (now : ℚ)
    (min_purchases : ℕ) (max_avg_interval max_days_since_last : ℚ) :
    ConsumptionPatternsResponse :=
  let all_products := get_product_purchase_history rows 1
  let computed := all_products.map (fun kv => calculate_consumption_pattern w kv.1 kv.2 now)
  let patterns := computed.filter
    (fun p => should_include_product p min_purchases max_avg_interval max_days_since_last)
  let filtered_count := computed.countP
    (fun p => !(should_include_product p min_purchases max_avg_interval max_days_since_last))
  { generated_at := now
    products := patterns.insertionSort needLE
    total_products_analyzed := patterns.length
    products_filtered_out := filtered_count }

/-- `app/recommendation_models.py`: `UrgencyLevel`. -/
inductive UrgencyLevel where
  | needed
  | soon
  | later
deriving DecidableEq, Repr

/-- `app/recommendation_models.py`: `ShoppingListItem` (without the two
optional decay-visualisation fields, which `generate_shopping_list` never
sets). -/
structure ShoppingListItem where
  product_name : String
  product_id : Option String
  suggested_quantity : ℤ
  urgency : UrgencyLevel
  estimated_days_until_needed : ℚ
  estimated_inventory : ℚ
  median_price : ℚ
  estimated_cost : ℚ
  confidence : ℚ
  last_purchase_date : ℚ
  purchase_count : ℕ
deriving DecidableEq, Repr

/-- The urgency chain in `generate_shopping_list`: `NEEDED` when
`days_until_needed <= days_ahead`, `SOON` when `<= days_ahead * 2`, else
`LATER`. -/
def urgency_of (days_ahead : ℤ) (p : ProductConsumptionPattern) : UrgencyLevel :=
  if p.days_until_needed ≤ (days_ahead : ℚ) then UrgencyLevel.needed
  else if p.days_until_needed ≤ (days_ahead : ℚ) * 2 then UrgencyLevel.soon
  else UrgencyLevel.later

/-- The `ShoppingListItem(...)` construction in `generate_shopping_list`,
including `suggested_qty = max(1, math.ceil(...))` and the roundings. -/
def shopping_list_item (days_ahead : ℤ) (p : ProductConsumptionPattern) : ShoppingListItem :=
  let suggested_qty : ℤ := max 1 ⌈p.median_quantity_per_purchase⌉
  { product_name := p.product_name
    product_id := p.product_id
    suggested_quantity := suggested_qty
    urgency := urgency_of days_ahead p
    estimated_days_until_needed := pyround 1 p.days_until_needed
    estimated_inventory := pyround 1 p.estimated_inventory
    median_price := pyround 2 p.median_price
    estimated_cost := pyround 2 (p.median_price * (suggested_qty : ℚ))
    confidence := p.confidence
    last_purchase_date := p.last_purchase_date
    purchase_count := p.purchase_count }

/-- The low-confidence skip in `generate_shopping_list`: skip a pattern only
when a minimum confidence was supplied and the pattern is below it. -/
def passes_min_confidence (min_confidence : Option ℚ) (p : ProductConsumptionPattern) : Bool :=
  match min_confidence with
  | none => true
  | some mc => !(p.confidence < mc)

/-- Key order used by `needed_items.sort(key=lambda x: x.estimated_days_until_needed)`. -/
def itemLE (a b : ShoppingListItem) : Prop :=
  a.estimated_days_until_needed ≤ b.estimated_days_until_needed

instance : DecidableRel itemLE := fun a b =>
  inferInstanceAs (Decidable (a.estimated_days_until_needed ≤ b.estimated_days_until_needed))

/-- `app/recommendation_models.py`: `ShoppingListRecommendation`. -/
structure ShoppingListRecommendation where
  generated_at : ℚ
  planning_horizon_days : ℤ
  needed_items : List ShoppingListItem
  might_need_soon : List ShoppingListItem
  estimated_total : ℚ
  items_analyzed : ℕ
  items_filtered_out : ℕ
deriving Repr

/-- `generate_shopping_list` from `app/recommendation_service.py`.  The single
loop of the source appends each surviving pattern's item to the bucket of its
urgency (dropping `LATER`), which is rendered as one filter+map per bucket. -/
def generate_shopping_list (w : ℚ → ℚ) (rows : List ReceiptRow) (now : ℚ)
    (days_ahead : ℤ) (min_confidence : Option ℚ) (min_purchases : ℕ)
    (max_avg_interval max_days_since_last : ℚ) : ShoppingListRecommendation :=
  let patterns_response :=
    get_consumption_patterns w rows now min_purchases max_avg_interval max_days_since_last
  let survivors := patterns_response.products.filter (passes_min_confidence min_confidence)
  let needed_items :=
    (survivors.filter (fun p => urgency_of days_ahead p = UrgencyLevel.needed)).map
      (shopping_list_item days_ahead)
  let might_need_soon :=
    (survivors.filter (fun p => urgency_of days_ahead p = UrgencyLevel.soon)).map
      (shopping_list_item days_ahead)
  let needed_sorted := needed_items.insertionSort itemLE
  let soon_sorted := might_need_soon.insertionSort itemLE
  let estimated_total := (needed_sorted.map (fun it => it.estimated_cost)).sum
  { generated_at := now
    planning_horizon_days := days_ahead
    needed_items := needed_sorted
    might_need_soon := soon_sorted
    estimated_total := pyround 2 estimated_total
    items_analyzed := patterns_response.total_products_analyzed
    items_filtered_out := patterns_response.products_filtered_out }

/-- Python's `"{:.nf}".format(q)` fixed-point formatting on rationals: round
half to even at `ndigits` decimals and print with exactly `ndigits` decimals
(no decimal point when `ndigits = 0`). -/
def fmtFixed (ndigits : ℕ) (q : ℚ) : String :=
  let scaled := bankersRound (q * 10 ^ ndigits)
  let sign := if q < 0 then "-" else ""
  let ds := toString scaled.natAbs
  let padded := String.mk (List.replicate (ndigits + 1 - ds.length) '0') ++ ds
  let chars := padded.toList
  if ndigits = 0 then sign ++ padded
  else sign ++ String.mk (chars.take (chars.length - ndigits)) ++ "." ++
    String.mk (chars.drop (chars.length - ndigits))

/-- The four-way urgency message chain at the end of
`_generate_prediction_explanation` (lines 449-456 of the source). -/
def urgencyLine (p : ProductConsumptionPattern) : String :=
  if p.days_until_needed ≥ 9999 then
    "Unable to predict when you\x27ll need more (insufficient data)."
  else if p.days_until_needed ≤ 0 then
    "You likely need to restock NOW."
  else if p.days_until_needed ≤ 4 then
    "Estimated to need restocking in " ++ fmtFixed 1 p.days_until_needed ++ " days."
  else
    "Estimated to need restocking in about " ++ fmtFixed 0 p.days_until_needed ++ " days."

/-- The `lines` list built by `_generate_prediction_explanation`. -/
def generate_prediction_explanation_lines (p : ProductConsumptionPattern) : List String :=
  [ "Based on " ++ toString p.purchase_count ++ " purchases:",
    "- You typically buy this every " ++ fmtFixed 1 p.median_interval_days ++ " days",
    "- Typical quantity per purchase: " ++ fmtFixed 1 p.median_quantity_per_purchase,
    "- Estimated consumption rate: " ++ fmtFixed 3 p.consumption_rate_per_day ++ " units/day",
    "",
    "Last purchased " ++ fmtFixed 1 p.days_since_last_purchase ++ " days ago.",
    "Estimated remaining inventory: " ++ fmtFixed 2 p.estimated_inventory ++ " units",
    urgencyLine p,
    "",
    "Confidence: " ++ fmtFixed 0 (p.confidence * 100) ++ "%" ]

/-- `_generate_prediction_explanation` from `app/recommendation_service.py`:
`"\n".join(lines)`. -/
def generate_prediction_explanation (p : ProductConsumptionPattern) : String :=
  String.intercalate "\n" (generate_prediction_explanation_lines p)

/-! ### Lemmas about the rounding helpers -/

theorem round_mono_rat {x y : ℚ} (h : x ≤ y) : round x ≤ round y := by
  rw [round_eq, round_eq]
  exact Int.floor_le_floor (by linarith)

theorem round_eq_floor_add_one_of_fract {q : ℚ} (h : Int.fract q = 1/2) :
    round q = ⌊q⌋ + 1 := by
  have hfr := Int.self_sub_floor q
  have hq : q + 1/2 = ((⌊q⌋ + 1 : ℤ) : ℚ) := by
    rw [h] at hfr
    push_cast
    linarith
  rw [round_eq, hq, Int.floor_intCast]

theorem floor_le_bankersRound (q : ℚ) : ⌊q⌋ ≤ bankersRound q := by
  unfold bankersRound
  split_ifs with h h2
  · exact le_refl _
  · omega
  · rw [round_eq]
    exact Int.floor_le_floor (by linarith)

theorem bankersRound_le_round (q : ℚ) : bankersRound q ≤ round q := by
  unfold bankersRound
  split_ifs with h h2
  · rw [round_eq_floor_add_one_of_fract h]
    omega
  · rw [round_eq_floor_add_one_of_fract h]
  · exact le_refl _

theorem round_le_ceil_rat (q : ℚ) : round q ≤ ⌈q⌉ := by
  rw [round_eq]
  have h2 : q + 1/2 < ((⌈q⌉ + 1 : ℤ) : ℚ) := by
    push_cast
    linarith [Int.le_ceil q]
  have := Int.floor_lt.mpr h2
  omega

theorem bankersRound_le_ceil (q : ℚ) : bankersRound q ≤ ⌈q⌉ :=
  le_trans (bankersRound_le_round q) (round_le_ceil_rat q)

theorem bankersRound_intCast (n : ℤ) : bankersRound (n : ℚ) = n := by
  unfold bankersRound
  rw [Int.fract_intCast, round_intCast]
  norm_num

theorem bankersRound_mono {x y : ℚ} (h : x ≤ y) : bankersRound x ≤ bankersRound y := by
  rcases eq_or_lt_of_le h with rfl | hlt
  · exact le_refl _
  have hbr : bankersRound x ≤ round x := bankersRound_le_round x
  by_cases h1 : Int.fract y = 1/2
  · by_cases h2 : 2 ∣ ⌊y⌋
    · have hby : bankersRound y = ⌊y⌋ := by
        unfold bankersRound
        rw [if_pos h1, if_pos h2]
      rw [hby]
      refine le_trans hbr ?_
      rw [round_eq]
      have hfr := Int.self_sub_floor y
      have hy : y = (⌊y⌋ : ℚ) + 1/2 := by rw [h1] at hfr; linarith
      have hx2 : x + 1/2 < ((⌊y⌋ + 1 : ℤ) : ℚ) := by push_cast; linarith
      have := Int.floor_lt.mpr hx2
      omega
    · have hby : bankersRound y = ⌊y⌋ + 1 := by
        unfold bankersRound
        rw [if_pos h1, if_neg h2]
      rw [hby, ← round_eq_floor_add_one_of_fract h1]
      exact le_trans hbr (round_mono_rat h)
  · have hby : bankersRound y = round y := by
      unfold bankersRound
      rw [if_neg h1]
    rw [hby]
    exact le_trans hbr (round_mono_rat h)

theorem pyround_mono (n : ℕ) {x y : ℚ} (h : x ≤ y) : pyround n x ≤ pyround n y := by
  unfold pyround
  have hp : (0:ℚ) < 10 ^ n := by positivity
  have hm : x * 10 ^ n ≤ y * 10 ^ n := by
    exact mul_le_mul_of_nonneg_right h (le_of_lt hp)
  have := bankersRound_mono hm
  gcongr

theorem pyround_zero (n : ℕ) : pyround n 0 = 0 := by
  unfold pyround
  rw [zero_mul]
  have : ((0:ℤ) : ℚ) = (0:ℚ) := by norm_num
  rw [← this, bankersRound_intCast]
  norm_num

theorem pyround_one (n : ℕ) : pyround n 1 = 1 := by
  unfold pyround
  rw [one_mul]
  have hcast : ((10:ℚ)) ^ n = (((10:ℤ) ^ n : ℤ) : ℚ) := by push_cast; ring
  rw [hcast, bankersRound_intCast, ← hcast]
  exact div_self (by positivity)

theorem pyround_nonneg (n : ℕ) {q : ℚ} (h : 0 ≤ q) : 0 ≤ pyround n q := by
  have := pyround_mono n h
  rwa [pyround_zero] at this

theorem pyround_le_one (n : ℕ) {q : ℚ} (h : q ≤ 1) : pyround n q ≤ 1 := by
  have := pyround_mono n h
  rwa [pyround_one] at this

/-! ### Structural lemmas about the estimator -/

theorem days_until_needed_def (w : ℚ → ℚ) (name : String) (l : List PurchaseEvent) (now : ℚ) :
    (consumption_pattern_of_sorted w name l now).days_until_needed =
      (if 0 < (consumption_pattern_of_sorted w name l now).consumption_rate_per_day
       then min 9999 ((consumption_pattern_of_sorted w name l now).estimated_inventory /
         (consumption_pattern_of_sorted w name l now).consumption_rate_per_day)
       else 9999) := by
  simp only [consumption_pattern_of_sorted]

/-! ### Concrete inputs shared by the concrete instantiations below -/

/-- A purchase at the epoch. -/
def evEarly : PurchaseEvent :=
  { date := 0, quantity := 1, unit_price := none, receipt_id := "r1", product_id := some "A" }

/-- A purchase 20000 days after `evEarly`. -/
def evLate : PurchaseEvent :=
  { date := 20000, quantity := 1, unit_price := none, receipt_id := "r2", product_id := some "B" }

/-! ### C1 -/

/-- C1: for a single purchase event dated `d = now - e.date` days before `now`,
the estimator sets both interval fields to `max d 7`. -/
theorem single_event_interval_floor (w : ℚ → ℚ) (name : String) (e : PurchaseEvent) (now : ℚ) :
    (calculate_consumption_pattern w name [e] now).weighted_avg_interval_days
      = max (now - e.date) 7 ∧
    (calculate_consumption_pattern w name [e] now).median_interval_days
      = max (now - e.date) 7 := by
  constructor <;>
    simp [calculate_consumption_pattern, consumption_pattern_of_sorted,
      List.insertionSort, List.orderedInsert]

/-! ### C2 -/

/-- C2 counterexample: two purchases of quantity 1, 20000 days apart, with
`now` at the second purchase.  The consumption rate is `1/20000 > 0`, the
estimated inventory is 1, so `estimated_inventory / consumption_rate = 20000`,
but the returned `days_until_needed` is the clamped 9999, not the quotient. -/
theorem days_until_needed_quotient_cex :
    (calculate_consumption_pattern (fun _ => 1) "X" [evEarly, evLate] 20000).consumption_rate_per_day
      = 1/20000 ∧
    (calculate_consumption_pattern (fun _ => 1) "X" [evEarly, evLate] 20000).estimated_inventory
      = 1 ∧
    (calculate_consumption_pattern (fun _ => 1) "X" [evEarly, evLate] 20000).days_until_needed
      = 9999 ∧
    ((1 : ℚ) / (1/20000) ≠ 9999) := by
  refine ⟨?_, ?_, ?_, by norm_num⟩ <;>
    norm_num [calculate_consumption_pattern, consumption_pattern_of_sorted,
      List.insertionSort, List.orderedInsert, dateLE, evEarly, evLate, pymedian]

/-- C2 (amended): `days_until_needed` is `min 9999 (estimated_inventory /
consumption_rate)` when the rate is positive, exactly 9999 when the rate is
zero, and at most 9999 in every case. -/
theorem days_until_needed_sentinel (w : ℚ → ℚ) (name : String)
    (purchases : List PurchaseEvent) (now : ℚ) (h : purchases ≠ []) :
    (0 < (calculate_consumption_pattern w name purchases now).consumption_rate_per_day →
      (calculate_consumption_pattern w name purchases now).days_until_needed =
        min 9999 ((calculate_consumption_pattern w name purchases now).estimated_inventory /
          (calculate_consumption_pattern w name purchases now).consumption_rate_per_day)) ∧
    ((calculate_consumption_pattern w name purchases now).consumption_rate_per_day = 0 →
      (calculate_consumption_pattern w name purchases now).days_until_needed = 9999) ∧
    (calculate_consumption_pattern w name purchases now).days_until_needed ≤ 9999 := by
  unfold calculate_consumption_pattern
  rw [days_until_needed_def]
  refine ⟨fun hr => if_pos hr, fun hr => ?_, ?_⟩
  · rw [if_neg]
    rw [hr]
    exact lt_irrefl 0
  · split_ifs
    · exact min_le_left _ _
    · exact le_refl _

/-- Witness for `days_until_needed_sentinel` at a concrete input. -/
theorem days_until_needed_sentinel_witness :
    ([evEarly] : List PurchaseEvent) ≠ [] ∧
    ((0 < (calculate_consumption_pattern (fun _ => 1) "X" [evEarly] 0).consumption_rate_per_day →
      (calculate_consumption_pattern (fun _ => 1) "X" [evEarly] 0).days_until_needed =
        min 9999 ((calculate_consumption_pattern (fun _ => 1) "X" [evEarly] 0).estimated_inventory /
          (calculate_consumption_pattern (fun _ => 1) "X" [evEarly] 0).consumption_rate_per_day)) ∧
    ((calculate_consumption_pattern (fun _ => 1) "X" [evEarly] 0).consumption_rate_per_day = 0 →
      (calculate_consumption_pattern (fun _ => 1) "X" [evEarly] 0).days_until_needed = 9999) ∧
    (calculate_consumption_pattern (fun _ => 1) "X" [evEarly] 0).days_until_needed ≤ 9999) :=
  ⟨by simp, days_until_needed_sentinel (fun _ => 1) "X" [evEarly] 0 (by simp)⟩

/-! ### C3 -/

/-- C3: on valid inputs the confidence score lies in `[0, 1]`, and for fixed
`median_interval` and `days_since_last` it is non-decreasing in
`purchase_count`. -/
theorem confidence_bounds_and_count_monotone (pc : ℕ) (mi ds : ℚ)
    (h1 : 1 ≤ pc) (h2 : 0 ≤ mi) (h3 : 0 ≤ ds) :
    0 ≤ calculate_confidence pc mi ds ∧ calculate_confidence pc mi ds ≤ 1 ∧
    ∀ pc' : ℕ, pc ≤ pc' →
      calculate_confidence pc mi ds ≤ calculate_confidence pc' mi ds := by
  refine ⟨?_, ?_, ?_⟩
  · unfold calculate_confidence
    exact pyround_nonneg 2 (le_max_left _ _)
  · unfold calculate_confidence
    exact pyround_le_one 2 (max_le (by norm_num) (min_le_left _ _))
  · intro pc' hpc
    unfold calculate_confidence
    apply pyround_mono
    apply max_le_max le_rfl
    apply min_le_min le_rfl
    have hrf : (0:ℚ) ≤
        (if mi > 0 then
          (if ds / mi > 1 then max 0 (1 - (ds / mi - 1) * (3/10)) else 1)
         else (1/2 : ℚ)) := by
      split_ifs <;> first
        | exact le_max_left _ _
        | norm_num
    have hcf : min 1 ((pc : ℚ) / 10) ≤ min 1 ((pc' : ℚ) / 10) := by
      have hc : (pc : ℚ) ≤ (pc' : ℚ) := by exact_mod_cast hpc
      gcongr
    exact mul_le_mul_of_nonneg_right
      (mul_le_mul_of_nonneg_right hcf hrf) (by norm_num)

/-- Witness for `confidence_bounds_and_count_monotone` at a concrete input. -/
theorem confidence_bounds_witness :
    (1 : ℕ) ≤ 1 ∧ (0 : ℚ) ≤ 7 ∧ (0 : ℚ) ≤ 0 ∧
    (0 ≤ calculate_confidence 1 7 0 ∧ calculate_confidence 1 7 0 ≤ 1 ∧
      ∀ pc' : ℕ, 1 ≤ pc' →
        calculate_confidence 1 7 0 ≤ calculate_confidence pc' 7 0) :=
  ⟨le_refl 1, by norm_num, le_refl 0,
    confidence_bounds_and_count_monotone 1 7 0 (le_refl 1) (by norm_num) (le_refl 0)⟩

/-! ### Lemmas about the extractor's grouping loop -/

theorem mem_addRowToProducts_events {acc : List (String × List PurchaseEvent)}
    {row : ReceiptRow} {kv : String × List PurchaseEvent}
    (hkv : kv ∈ addRowToProducts acc row) {e : PurchaseEvent} (he : e ∈ kv.2) :
    (∃ kv' ∈ acc, e ∈ kv'.2) ∨ e = rowEvent row := by
  unfold addRowToProducts at hkv
  split_ifs at hkv with hany
  · rcases List.mem_map.mp hkv with ⟨kv0, hkv0, hEq⟩
    by_cases hk : kv0.1 = row.product_name
    · rw [if_pos hk] at hEq
      subst hEq
      rcases List.mem_append.mp he with h1 | h2
      · exact Or.inl ⟨kv0, hkv0, h1⟩
      · simp only [List.mem_singleton] at h2
        exact Or.inr h2
    · rw [if_neg hk] at hEq
      subst hEq
      exact Or.inl ⟨kv0, hkv0, he⟩
  · rcases List.mem_append.mp hkv with h1 | h2
    · exact Or.inl ⟨kv, h1, he⟩
    · simp only [List.mem_singleton] at h2
      subst h2
      simp only [List.mem_singleton] at he
      exact Or.inr he

theorem mem_foldl_addRow_events (rows : List ReceiptRow) :
    ∀ (acc : List (String × List PurchaseEvent)) (kv : String × List PurchaseEvent),
      kv ∈ rows.foldl addRowToProducts acc → ∀ e ∈ kv.2,
      (∃ kv' ∈ acc, e ∈ kv'.2) ∨ ∃ r ∈ rows, e = rowEvent r := by
  induction rows with
  | nil =>
    intro acc kv hkv e he
    exact Or.inl ⟨kv, hkv, he⟩
  | cons r rs ih =>
    intro acc kv hkv e he
    rcases ih (addRowToProducts acc r) kv hkv e he with h | ⟨r', hr', hEq⟩
    · rcases h with ⟨kv', hkv', he'⟩
      rcases mem_addRowToProducts_events hkv' he' with h2 | h2
      · exact Or.inl h2
      · exact Or.inr ⟨r, List.mem_cons_self r rs, h2⟩
    · exact Or.inr ⟨r', List.mem_cons_of_mem r hr', hEq⟩

theorem mem_history_events {rows : List ReceiptRow} {minp : ℕ}
    {kv : String × List PurchaseEvent} (hkv : kv ∈ get_product_purchase_history rows minp)
    {e : PurchaseEvent} (he : e ∈ kv.2) :
    ∃ r ∈ rows, e = rowEvent r := by
  unfold get_product_purchase_history at hkv
  split_ifs at hkv with hmp
  · have hkv' := (List.mem_filter.mp hkv).1
    rcases mem_foldl_addRow_events rows [] kv hkv' e he with h | h
    · simp at h
    · exact h
  · rcases mem_foldl_addRow_events rows [] kv hkv e he with h | h
    · simp at h
    · exact h

theorem rowEvent_quantity_eq (r : ReceiptRow) :
    (rowEvent r).quantity = match r.quantity with
      | none => 1
      | some q => if q = 0 then 1 else q := rfl

theorem rowEvent_quantity (r : ReceiptRow) :
    (rowEvent r).quantity ≠ 0 ∧
    ((rowEvent r).quantity = 1 ∨ r.quantity = some (rowEvent r).quantity) ∧
    ((∀ q, r.quantity = some q → 0 ≤ q) → 0 < (rowEvent r).quantity) := by
  rcases hq : r.quantity with _ | q
  · have he : (rowEvent r).quantity = 1 := by rw [rowEvent_quantity_eq, hq]
    rw [he]
    norm_num
  · by_cases h0 : q = 0
    · have he : (rowEvent r).quantity = 1 := by
        rw [rowEvent_quantity_eq, hq]
        simp [h0]
      rw [he]
      norm_num
    · have he : (rowEvent r).quantity = q := by
        rw [rowEvent_quantity_eq, hq]
        simp [h0]
      rw [he]
      exact ⟨h0, Or.inr rfl, fun hpos => lt_of_le_of_ne (hpos q rfl) (Ne.symm h0)⟩

/-! ### C9 -/

/-- A stored row with a negative quantity, kept verbatim by the extractor. -/
def negRow : ReceiptRow :=
  { product_name := "X", product_id := none, quantity := some (-1), unit_price := none,
    receipt_id := "n1", transaction_moment := 5 }

/-- The event `negRow` turns into: the stored `-1` is kept verbatim. -/
def negEvent : PurchaseEvent :=
  { date := 5, quantity := -1, unit_price := none, receipt_id := "n1", product_id := none }

/-- C9 counterexample: a stored quantity of `-1` is truthy in Python, so the
extractor keeps it unchanged, producing an event whose quantity is not
positive. -/
theorem extractor_negative_quantity_cex :
    get_product_purchase_history [negRow] 1 = [("X", [negEvent])] ∧
    negEvent.quantity ≠ 0 ∧ ¬(0 < negEvent.quantity) := by
  refine ⟨?_, by norm_num [negEvent], by norm_num [negEvent]⟩
  norm_num [get_product_purchase_history, addRowToProducts, rowEvent, negRow, negEvent]

/-- C9 (amended): the extractor never produces an event with quantity 0 — a
missing or zero stored quantity becomes `1.0`, and otherwise the stored
quantity is kept — so every event quantity is nonzero, and positive whenever
all stored quantities are nonnegative. -/
theorem extractor_quantity_spec (rows : List ReceiptRow) (minp : ℕ)
    (kv : String × List PurchaseEvent) (hkv : kv ∈ get_product_purchase_history rows minp)
    (e : PurchaseEvent) (he : e ∈ kv.2) :
    e.quantity ≠ 0 ∧
    (e.quantity = 1 ∨ ∃ r ∈ rows, r.quantity = some e.quantity) ∧
    ((∀ r ∈ rows, ∀ q, r.quantity = some q → 0 ≤ q) → 0 < e.quantity) := by
  rcases mem_history_events hkv he with ⟨r, hr, rfl⟩
  obtain ⟨h1, h2, h3⟩ := rowEvent_quantity r
  exact ⟨h1, h2.imp id (fun hs => ⟨r, hr, hs⟩), fun hall => h3 (hall r hr)⟩

/-- A well-formed stored row used to instantiate the extractor theorems. -/
def goodRow : ReceiptRow :=
  { product_name := "Y", product_id := none, quantity := some 2, unit_price := none,
    receipt_id := "g1", transaction_moment := 3 }

/-- Witness for `extractor_quantity_spec` at a concrete input. -/
theorem extractor_quantity_spec_witness :
    (("Y", [rowEvent goodRow]) ∈ get_product_purchase_history [goodRow] 1) ∧
    rowEvent goodRow ∈ [rowEvent goodRow] ∧
    ((rowEvent goodRow).quantity ≠ 0 ∧
      ((rowEvent goodRow).quantity = 1 ∨
        ∃ r ∈ [goodRow], r.quantity = some (rowEvent goodRow).quantity) ∧
      ((∀ r ∈ [goodRow], ∀ q, r.quantity = some q → 0 ≤ q) →
        0 < (rowEvent goodRow).quantity)) := by
  have hm : get_product_purchase_history [goodRow] 1 = [("Y", [rowEvent goodRow])] := by
    norm_num [get_product_purchase_history, addRowToProducts, goodRow]
  have hkv : ("Y", [rowEvent goodRow]) ∈ get_product_purchase_history [goodRow] 1 := by
    rw [hm]
    exact List.mem_singleton.mpr rfl
  exact ⟨hkv, List.mem_singleton.mpr rfl,
    extractor_quantity_spec [goodRow] 1 _ hkv _ (List.mem_singleton.mpr rfl)⟩

/-! ### C5 -/

/-- C5 counterexample: three weekly purchases (count exactly `min_purchases =
3`) whose last purchase was 186 days before `now`: the pattern fails the
recency ceiling, so a product purchased exactly `min_purchases` times is not
necessarily retained. -/
theorem min_purchases_retention_cex :
    (calculate_consumption_pattern (fun _ => 1) "X"
      [{ date := 0, quantity := 1, unit_price := none, receipt_id := "s1", product_id := none },
       { date := 7, quantity := 1, unit_price := none, receipt_id := "s2", product_id := none },
       { date := 14, quantity := 1, unit_price := none, receipt_id := "s3", product_id := none }]
      200).purchase_count = 3 ∧
    should_include_product
      (calculate_consumption_pattern (fun _ => 1) "X"
        [{ date := 0, quantity := 1, unit_price := none, receipt_id := "s1", product_id := none },
         { date := 7, quantity := 1, unit_price := none, receipt_id := "s2", product_id := none },
         { date := 14, quantity := 1, unit_price := none, receipt_id := "s3", product_id := none }]
        200) 3 60 90 = false := by
  constructor <;>
    norm_num [calculate_consumption_pattern, consumption_pattern_of_sorted,
      should_include_product, List.insertionSort, List.orderedInsert, dateLE, pymedian]

/-- C5 (amended): the filter rejects exactly on the three disjuncts, every
rejected product is counted in `items_filtered_out`, and a product purchased
exactly `min_purchases` times is retained provided it also passes the interval
and recency ceilings. -/
theorem inclusion_filter_spec (w : ℚ → ℚ) (rows : List ReceiptRow) (now : ℚ)
    (days_ahead : ℤ) (min_confidence : Option ℚ) (minp : ℕ) (mai mdsl : ℚ)
    (p : ProductConsumptionPattern) :
    (should_include_product p minp mai mdsl = false ↔
      (p.purchase_count < minp ∨ mai < p.median_interval_days ∨
        mdsl < p.days_since_last_purchase)) ∧
    ((generate_shopping_list w rows now days_ahead min_confidence minp mai mdsl).items_filtered_out =
      ((get_product_purchase_history rows 1).map
        (fun kv => calculate_consumption_pattern w kv.1 kv.2 now)).countP
        (fun q => !(should_include_product q minp mai mdsl))) ∧
    (p.purchase_count = minp → p.median_interval_days ≤ mai →
      p.days_since_last_purchase ≤ mdsl →
      should_include_product p minp mai mdsl = true) := by
  refine ⟨?_, rfl, ?_⟩
  · unfold should_include_product
    split_ifs with hA hB hC <;> simp_all
  · intro hpc hmi hds
    unfold should_include_product
    split_ifs with hA hB hC
    · omega
    · exact absurd hmi (not_le.mpr hB)
    · exact absurd hds (not_le.mpr hC)
    · rfl

/-- Witness for `inclusion_filter_spec` at a concrete input. -/
theorem inclusion_filter_spec_witness :
    (calculate_consumption_pattern (fun _ => 1) "X"
      [{ date := 0, quantity := 1, unit_price := none, receipt_id := "s1", product_id := none },
       { date := 7, quantity := 1, unit_price := none, receipt_id := "s2", product_id := none },
       { date := 14, quantity := 1, unit_price := none, receipt_id := "s3", product_id := none }]
      14).purchase_count = 3 ∧
    should_include_product
      (calculate_consumption_pattern (fun _ => 1) "X"
        [{ date := 0, quantity := 1, unit_price := none, receipt_id := "s1", product_id := none },
         { date := 7, quantity := 1, unit_price := none, receipt_id := "s2", product_id := none },
         { date := 14, quantity := 1, unit_price := none, receipt_id := "s3", product_id := none }]
        14) 3 60 90 = true := by
  have hpc : (calculate_consumption_pattern (fun _ => 1) "X"
      [{ date := 0, quantity := 1, unit_price := none, receipt_id := "s1", product_id := none },
       { date := 7, quantity := 1, unit_price := none, receipt_id := "s2", product_id := none },
       { date := 14, quantity := 1, unit_price := none, receipt_id := "s3", product_id := none }]
      14).purchase_count = 3 := by
    norm_num [calculate_consumption_pattern, consumption_pattern_of_sorted,
      List.insertionSort, List.orderedInsert, dateLE]
  have hmi : (calculate_consumption_pattern (fun _ => 1) "X"
      [{ date := 0, quantity := 1, unit_price := none, receipt_id := "s1", product_id := none },
       { date := 7, quantity := 1, unit_price := none, receipt_id := "s2", product_id := none },
       { date := 14, quantity := 1, unit_price := none, receipt_id := "s3", product_id := none }]
      14).median_interval_days ≤ 60 := by
    norm_num [calculate_consumption_pattern, consumption_pattern_of_sorted,
      List.insertionSort, List.orderedInsert, dateLE, pymedian]
  have hds : (calculate_consumption_pattern (fun _ => 1) "X"
      [{ date := 0, quantity := 1, unit_price := none, receipt_id := "s1", product_id := none },
       { date := 7, quantity := 1, unit_price := none, receipt_id := "s2", product_id := none },
       { date := 14, quantity := 1, unit_price := none, receipt_id := "s3", product_id := none }]
      14).days_since_last_purchase ≤ 90 := by
    norm_num [calculate_consumption_pattern, consumption_pattern_of_sorted,
      List.insertionSort, List.orderedInsert, dateLE]
  exact ⟨hpc,
    (inclusion_filter_spec (fun _ => 1) [] 14 4 none 3 60 90 _).2.2 hpc hmi hds⟩

/-! ### C10 -/

/-- C10: `items_analyzed` counts exactly the extracted products that pass the
inclusion filter (independent of the minimum-confidence skip), and together
with `items_filtered_out` it partitions the extracted products. -/
theorem items_analyzed_partition (w : ℚ → ℚ) (rows : List ReceiptRow) (now : ℚ)
    (days_ahead : ℤ) (min_confidence : Option ℚ) (minp : ℕ) (mai mdsl : ℚ) :
    (generate_shopping_list w rows now days_ahead min_confidence minp mai mdsl).items_analyzed =
      (((get_product_purchase_history rows 1).map
        (fun kv => calculate_consumption_pattern w kv.1 kv.2 now)).filter
        (fun p => should_include_product p minp mai mdsl)).length ∧
    (generate_shopping_list w rows now days_ahead min_confidence minp mai mdsl).items_analyzed +
      (generate_shopping_list w rows now days_ahead min_confidence minp mai mdsl).items_filtered_out =
      (get_product_purchase_history rows 1).length := by
  constructor
  · rfl
  · show (((get_product_purchase_history rows 1).map
        (fun kv => calculate_consumption_pattern w kv.1 kv.2 now)).filter
        (fun p => should_include_product p minp mai mdsl)).length +
      ((get_product_purchase_history rows 1).map
        (fun kv => calculate_consumption_pattern w kv.1 kv.2 now)).countP
        (fun p => !(should_include_product p minp mai mdsl)) =
      (get_product_purchase_history rows 1).length
    rw [← List.countP_eq_length_filter]
    rw [← List.length_map (get_product_purchase_history rows 1)
      (fun kv => calculate_consumption_pattern w kv.1 kv.2 now)]
    have h := List.length_eq_countP_add_countP
      (fun p => should_include_product p minp mai mdsl)
      ((get_product_purchase_history rows 1).map
        (fun kv => calculate_consumption_pattern w kv.1 kv.2 now))
    rw [h]
    congr 1
    apply List.countP_congr
    intro p _
    simp

/-! ### C8 -/

/-- Two purchases on the same date whose `product_id`s differ: Python's stable
sort keeps the caller's order among tied dates, and `product_id` is taken from
the last element of the sorted list. -/
def evTie1 : PurchaseEvent :=
  { date := 0, quantity := 1, unit_price := none, receipt_id := "t1", product_id := some "A" }

/-- See `evTie1`. -/
def evTie2 : PurchaseEvent :=
  { date := 0, quantity := 1, unit_price := none, receipt_id := "t2", product_id := some "B" }

/-- C8 counterexample: with two events sharing a date, the stable sort breaks
the tie by input order, so swapping the input changes the `product_id` taken
from the most recent purchase — the estimator is not permutation-invariant. -/
theorem estimator_permutation_cex :
    [evTie1, evTie2].Perm [evTie2, evTie1] ∧
    (calculate_consumption_pattern (fun _ => 1) "X" [evTie1, evTie2] 0).product_id = some "B" ∧
    (calculate_consumption_pattern (fun _ => 1) "X" [evTie2, evTie1] 0).product_id = some "A" ∧
    calculate_consumption_pattern (fun _ => 1) "X" [evTie1, evTie2] 0 ≠
      calculate_consumption_pattern (fun _ => 1) "X" [evTie2, evTie1] 0 := by
  have h1 : (calculate_consumption_pattern (fun _ => 1) "X" [evTie1, evTie2] 0).product_id
      = some "B" := by
    norm_num [calculate_consumption_pattern, consumption_pattern_of_sorted,
      List.insertionSort, List.orderedInsert, dateLE, evTie1, evTie2]
  have h2 : (calculate_consumption_pattern (fun _ => 1) "X" [evTie2, evTie1] 0).product_id
      = some "A" := by
    norm_num [calculate_consumption_pattern, consumption_pattern_of_sorted,
      List.insertionSort, List.orderedInsert, dateLE, evTie1, evTie2]
  refine ⟨List.Perm.swap evTie2 evTie1 [], h1, h2, fun hEq => ?_⟩
  rw [hEq, h2] at h1
  simp at h1

theorem insertionSort_strict_sorted (l : List PurchaseEvent)
    (hnd : (l.map (fun e => e.date)).Nodup) :
    List.Sorted (fun a b : PurchaseEvent => a.date < b.date) (l.insertionSort dateLE) := by
  haveI : IsTotal PurchaseEvent dateLE := ⟨fun a b => le_total a.date b.date⟩
  haveI : IsTrans PurchaseEvent dateLE := ⟨fun a b c hab hbc => le_trans hab hbc⟩
  have hs : List.Sorted dateLE (l.insertionSort dateLE) := List.sorted_insertionSort dateLE l
  have hnd' : ((l.insertionSort dateLE).map (fun e => e.date)).Nodup :=
    ((List.perm_insertionSort dateLE l).map (fun e => e.date)).nodup_iff.mpr hnd
  have hne : List.Pairwise (fun a b : PurchaseEvent => a.date ≠ b.date)
      (l.insertionSort dateLE) := List.pairwise_map.mp hnd'
  exact (List.Pairwise.and hs hne).imp (fun h => lt_of_le_of_ne h.1 h.2)

/-- C8 (amended): when the event dates are pairwise distinct, the estimator
returns the same pattern for every permutation of the input list (with tied
dates only the tie-broken `product_id` can differ, see
`estimator_permutation_cex`). -/
theorem estimator_permutation_invariant (w : ℚ → ℚ) (name : String)
    (l l' : List PurchaseEvent) (now : ℚ)
    (hnd : (l.map (fun e => e.date)).Nodup) (hperm : l.Perm l') :
    calculate_consumption_pattern w name l now =
      calculate_consumption_pattern w name l' now := by
  unfold calculate_consumption_pattern
  have hsort : l.insertionSort dateLE = l'.insertionSort dateLE := by
    haveI : IsAntisymm PurchaseEvent (fun a b : PurchaseEvent => a.date < b.date) :=
      ⟨fun a b hab hba => absurd (hab.trans hba) (lt_irrefl _)⟩
    apply List.eq_of_perm_of_sorted (r := fun a b : PurchaseEvent => a.date < b.date)
    · exact (List.perm_insertionSort dateLE l).trans
        (hperm.trans (List.perm_insertionSort dateLE l').symm)
    · exact insertionSort_strict_sorted l hnd
    · exact insertionSort_strict_sorted l' (((hperm.map (fun e => e.date)).nodup_iff).mp hnd)
  rw [hsort]

/-- An event 7 days after `evEarly`-style epoch, with a distinct date. -/
def evWeek : PurchaseEvent :=
  { date := 7, quantity := 2, unit_price := none, receipt_id := "d2", product_id := none }

/-- Witness for `estimator_permutation_invariant` at a concrete input. -/
theorem estimator_permutation_invariant_witness :
    (([evEarly, evWeek].map (fun e => e.date)).Nodup) ∧
    [evEarly, evWeek].Perm [evWeek, evEarly] ∧
    calculate_consumption_pattern (fun _ => 1) "X" [evEarly, evWeek] 7 =
      calculate_consumption_pattern (fun _ => 1) "X" [evWeek, evEarly] 7 := by
  have hnd : (([evEarly, evWeek]).map (fun e => e.date)).Nodup := by
    norm_num [evEarly, evWeek]
  exact ⟨hnd, List.Perm.swap evWeek evEarly [],
    estimator_permutation_invariant (fun _ => 1) "X" [evEarly, evWeek] [evWeek, evEarly] 7
      hnd (List.Perm.swap evWeek evEarly [])⟩

/-! ### Lemmas about product keys and urgency, used for C4 -/

theorem keys_addRowToProducts (acc : List (String × List PurchaseEvent)) (r : ReceiptRow) :
    (addRowToProducts acc r).map Prod.fst =
      if acc.any (fun kv => kv.1 = r.product_name) then acc.map Prod.fst
      else acc.map Prod.fst ++ [r.product_name] := by
  unfold addRowToProducts
  split_ifs with h
  · rw [List.map_map]
    apply List.map_congr_left
    intro kv _
    by_cases hk : kv.1 = r.product_name <;> simp [hk]
  · simp

theorem nodup_keys_foldl (rows : List ReceiptRow) :
    ∀ acc : List (String × List PurchaseEvent),
      (acc.map Prod.fst).Nodup → ((rows.foldl addRowToProducts acc).map Prod.fst).Nodup := by
  induction rows with
  | nil =>
    intro acc h
    exact h
  | cons r rs ih =>
    intro acc h
    apply ih
    rw [keys_addRowToProducts]
    split_ifs with hany
    · exact h
    · rw [List.nodup_append]
      refine ⟨h, List.nodup_singleton _, ?_⟩
      intro a ha hb
      simp only [List.mem_singleton] at hb
      subst hb
      rcases List.mem_map.mp ha with ⟨kv, hkv, hkv1⟩
      apply hany
      rw [List.any_eq_true]
      exact ⟨kv, hkv, by simp [hkv1]⟩

theorem nodup_history_keys (rows : List ReceiptRow) (minp : ℕ) :
    ((get_product_purchase_history rows minp).map Prod.fst).Nodup := by
  unfold get_product_purchase_history
  have h0 := nodup_keys_foldl rows [] (by simp)
  split_ifs with h
  · exact List.Nodup.sublist (List.Sublist.map Prod.fst (List.filter_sublist _)) h0
  · exact h0

theorem nodup_pattern_names (w : ℚ → ℚ) (rows : List ReceiptRow) (now : ℚ)
    (minp : ℕ) (mai mdsl : ℚ) :
    (((get_consumption_patterns w rows now minp mai mdsl).products).map
      (fun p => p.product_name)).Nodup := by
  have hall := nodup_history_keys rows 1
  have hcomputed : (((get_product_purchase_history rows 1).map
      (fun kv => calculate_consumption_pattern w kv.1 kv.2 now)).map
        (fun p => p.product_name))
      = (get_product_purchase_history rows 1).map Prod.fst := by
    rw [List.map_map]
    apply List.map_congr_left
    intro kv _
    rfl
  have h2 : ((((get_product_purchase_history rows 1).map
      (fun kv => calculate_consumption_pattern w kv.1 kv.2 now)).filter
      (fun p => should_include_product p minp mai mdsl)).map
        (fun p => p.product_name)).Nodup := by
    refine List.Nodup.sublist (List.Sublist.map _ (List.filter_sublist _)) ?_
    rw [hcomputed]
    exact hall
  exact ((List.perm_insertionSort needLE _).map (fun p => p.product_name)).nodup_iff.mpr h2

theorem map_key_inj {α β : Type _} (f : α → β) :
    ∀ l : List α, (l.map f).Nodup → ∀ p ∈ l, ∀ q ∈ l, f p = f q → p = q := by
  intro l
  induction l with
  | nil =>
    intro _ p hp
    exact absurd hp (List.not_mem_nil p)
  | cons a t ih =>
    intro hnd p hp q hq hf
    rw [List.map_cons, List.nodup_cons] at hnd
    rcases List.mem_cons.mp hp with rfl | hp'
    · rcases List.mem_cons.mp hq with rfl | hq'
      · rfl
      · have h1 : f q ∈ t.map f := List.mem_map_of_mem f hq'
        rw [← hf] at h1
        exact absurd h1 hnd.1
    · rcases List.mem_cons.mp hq with rfl | hq'
      · have h1 : f p ∈ t.map f := List.mem_map_of_mem f hp'
        rw [hf] at h1
        exact absurd h1 hnd.1
      · exact ih hnd.2 p hp' q hq' hf

theorem urgency_of_needed {da : ℤ} {p : ProductConsumptionPattern}
    (h : p.days_until_needed ≤ (da : ℚ)) : urgency_of da p = UrgencyLevel.needed := by
  unfold urgency_of
  rw [if_pos h]

theorem urgency_of_soon {da : ℤ} {p : ProductConsumptionPattern}
    (h1 : ¬ p.days_until_needed ≤ (da : ℚ)) (h2 : p.days_until_needed ≤ (da : ℚ) * 2) :
    urgency_of da p = UrgencyLevel.soon := by
  unfold urgency_of
  rw [if_neg h1, if_pos h2]

theorem urgency_of_later {da : ℤ} {p : ProductConsumptionPattern}
    (hda : (0 : ℚ) ≤ (da : ℚ)) (h : (da : ℚ) * 2 < p.days_until_needed) :
    urgency_of da p = UrgencyLevel.later := by
  unfold urgency_of
  rw [if_neg (not_le.mpr (lt_of_le_of_lt (by linarith) h)), if_neg (not_le.mpr h)]

theorem generate_needed_items_eq (w : ℚ → ℚ) (rows : List ReceiptRow) (now : ℚ)
    (da : ℤ) (minc : Option ℚ) (minp : ℕ) (mai mdsl : ℚ) :
    (generate_shopping_list w rows now da minc minp mai mdsl).needed_items =
      List.insertionSort itemLE
        (((((get_consumption_patterns w rows now minp mai mdsl).products).filter
          (passes_min_confidence minc)).filter
          (fun q => urgency_of da q = UrgencyLevel.needed)).map (shopping_list_item da)) := rfl

theorem generate_soon_items_eq (w : ℚ → ℚ) (rows : List ReceiptRow) (now : ℚ)
    (da : ℤ) (minc : Option ℚ) (minp : ℕ) (mai mdsl : ℚ) :
    (generate_shopping_list w rows now da minc minp mai mdsl).might_need_soon =
      List.insertionSort itemLE
        (((((get_consumption_patterns w rows now minp mai mdsl).products).filter
          (passes_min_confidence minc)).filter
          (fun q => urgency_of da q = UrgencyLevel.soon)).map (shopping_list_item da)) := rfl

/-! ### C4 -/

/-- C4: a surviving pattern lands in `needed_items` when
`days_until_needed ≤ days_ahead`, in `might_need_soon` when
`days_ahead < days_until_needed ≤ 2 * days_ahead`, and in neither bucket when
`days_until_needed > 2 * days_ahead` (within the documented horizon range
`days_ahead ≥ 1`). -/
theorem urgency_partition (w : ℚ → ℚ) (rows : List ReceiptRow) (now : ℚ)
    (days_ahead : ℤ) (min_confidence : Option ℚ) (minp : ℕ) (mai mdsl : ℚ)
    (hda : 1 ≤ days_ahead) (p : ProductConsumptionPattern)
    (hp : p ∈ (get_consumption_patterns w rows now minp mai mdsl).products)
    (hconf : passes_min_confidence min_confidence p = true) :
    (p.days_until_needed ≤ (days_ahead : ℚ) →
      shopping_list_item days_ahead p ∈
        (generate_shopping_list w rows now days_ahead min_confidence minp mai mdsl).needed_items) ∧
    ((days_ahead : ℚ) < p.days_until_needed ∧
        p.days_until_needed ≤ (days_ahead : ℚ) * 2 →
      shopping_list_item days_ahead p ∈
        (generate_shopping_list w rows now days_ahead min_confidence minp mai mdsl).might_need_soon) ∧
    ((days_ahead : ℚ) * 2 < p.days_until_needed →
      (∀ it ∈ (generate_shopping_list w rows now days_ahead min_confidence minp mai
          mdsl).needed_items, it.product_name ≠ p.product_name) ∧
      (∀ it ∈ (generate_shopping_list w rows now days_ahead min_confidence minp mai
          mdsl).might_need_soon, it.product_name ≠ p.product_name)) := by
  have hda0 : (0 : ℚ) ≤ (days_ahead : ℚ) := by
    have : (1 : ℤ) ≤ days_ahead := hda
    exact_mod_cast le_trans zero_le_one this
  have hps : p ∈ ((get_consumption_patterns w rows now minp mai mdsl).products).filter
      (passes_min_confidence min_confidence) := List.mem_filter.mpr ⟨hp, hconf⟩
  refine ⟨?_, ?_, ?_⟩
  · intro h1
    rw [generate_needed_items_eq, (List.perm_insertionSort itemLE _).mem_iff]
    apply List.mem_map_of_mem
    apply List.mem_filter.mpr
    refine ⟨hps, ?_⟩
    rw [urgency_of_needed h1]
    simp
  · intro h2
    rw [generate_soon_items_eq, (List.perm_insertionSort itemLE _).mem_iff]
    apply List.mem_map_of_mem
    apply List.mem_filter.mpr
    refine ⟨hps, ?_⟩
    rw [urgency_of_soon (not_le.mpr h2.1) h2.2]
    simp
  · intro h3
    have hlater : urgency_of days_ahead p = UrgencyLevel.later := urgency_of_later hda0 h3
    constructor
    · intro it hit
      rw [generate_needed_items_eq, (List.perm_insertionSort itemLE _).mem_iff] at hit
      rcases List.mem_map.mp hit with ⟨q, hqf, rfl⟩
      have hq2 := List.mem_filter.mp hqf
      have hq3 := List.mem_filter.mp hq2.1
      have hurgq : urgency_of days_ahead q = UrgencyLevel.needed := by
        simpa using hq2.2
      intro hname
      have hqp : q = p := map_key_inj (fun p => p.product_name) _
        (nodup_pattern_names w rows now minp mai mdsl) q hq3.1 p hp hname
      rw [hqp, hlater] at hurgq
      cases hurgq
    · intro it hit
      rw [generate_soon_items_eq, (List.perm_insertionSort itemLE _).mem_iff] at hit
      rcases List.mem_map.mp hit with ⟨q, hqf, rfl⟩
      have hq2 := List.mem_filter.mp hqf
      have hq3 := List.mem_filter.mp hq2.1
      have hurgq : urgency_of days_ahead q = UrgencyLevel.soon := by
        simpa using hq2.2
      intro hname
      have hqp : q = p := map_key_inj (fun p => p.product_name) _
        (nodup_pattern_names w rows now minp mai mdsl) q hq3.1 p hp hname
      rw [hqp, hlater] at hurgq
      cases hurgq

/-- Three weekly purchases of one product, used to drive the full pipeline. -/
def milkRows : List ReceiptRow :=
  [ { product_name := "Milk", product_id := some "m1", quantity := some 1, unit_price := none,
      receipt_id := "m0", transaction_moment := 0 },
    { product_name := "Milk", product_id := some "m1", quantity := some 1, unit_price := none,
      receipt_id := "m1", transaction_moment := 7 },
    { product_name := "Milk", product_id := some "m1", quantity := some 1, unit_price := none,
      receipt_id := "m2", transaction_moment := 14 } ]

/-- The event of the first `milkRows` row. -/
def mev0 : PurchaseEvent :=
  { date := 0, quantity := 1, unit_price := none, receipt_id := "m0", product_id := some "m1" }

/-- The event of the second `milkRows` row. -/
def mev1 : PurchaseEvent :=
  { date := 7, quantity := 1, unit_price := none, receipt_id := "m1", product_id := some "m1" }

/-- The event of the third `milkRows` row. -/
def mev2 : PurchaseEvent :=
  { date := 14, quantity := 1, unit_price := none, receipt_id := "m2", product_id := some "m1" }

/-- The pattern the pipeline computes for `milkRows` at `now = 14`. -/
def pMilk : ProductConsumptionPattern :=
  calculate_consumption_pattern (fun _ => 1) "Milk" [mev0, mev1, mev2] 14

theorem milkRows_grouped :
    get_product_purchase_history milkRows 1 = [("Milk", [mev0, mev1, mev2])] := by
  norm_num [get_product_purchase_history, addRowToProducts, rowEvent, milkRows,
    mev0, mev1, mev2]

theorem pMilk_sorted :
    ([mev0, mev1, mev2] : List PurchaseEvent).insertionSort dateLE = [mev0, mev1, mev2] := by
  norm_num [List.insertionSort, List.orderedInsert, dateLE, mev0, mev1, mev2]

set_option maxHeartbeats 1000000 in
theorem pMilk_days_until_needed : pMilk.days_until_needed = 7 := by
  rw [pMilk, calculate_consumption_pattern, pMilk_sorted]
  norm_num [consumption_pattern_of_sorted, pymedian, List.insertionSort,
    List.orderedInsert, mev0, mev1, mev2]

set_option maxHeartbeats 1000000 in
theorem pMilk_included : should_include_product pMilk 3 60 90 = true := by
  have hpc : pMilk.purchase_count = 3 := by
    rw [pMilk, calculate_consumption_pattern, pMilk_sorted]
    norm_num [consumption_pattern_of_sorted]
  have hmi : pMilk.median_interval_days = 7 := by
    rw [pMilk, calculate_consumption_pattern, pMilk_sorted]
    norm_num [consumption_pattern_of_sorted, pymedian, List.insertionSort,
      List.orderedInsert, mev0, mev1, mev2]
  have hds : pMilk.days_since_last_purchase = 0 := by
    rw [pMilk, calculate_consumption_pattern, pMilk_sorted]
    norm_num [consumption_pattern_of_sorted, mev0, mev1, mev2]
  unfold should_include_product
  rw [hpc, hmi, hds]
  norm_num

theorem milk_products_eq :
    (get_consumption_patterns (fun _ => 1) milkRows 14 3 60 90).products = [pMilk] := by
  show List.insertionSort needLE
      (((get_product_purchase_history milkRows 1).map
        (fun kv => calculate_consumption_pattern (fun _ => 1) kv.1 kv.2 14)).filter
        (fun p => should_include_product p 3 60 90)) = [pMilk]
  rw [milkRows_grouped]
  simp only [List.map_cons, List.map_nil]
  rw [show calculate_consumption_pattern (fun _ => 1) "Milk" [mev0, mev1, mev2] 14 = pMilk
    from rfl]
  rw [List.filter_cons, pMilk_included]
  norm_num [List.insertionSort, List.orderedInsert]

/-- Witness for `urgency_partition` at a concrete input: the weekly pattern has
`days_until_needed = 7`, which for `days_ahead = 4` lands in
`might_need_soon`. -/
theorem urgency_partition_witness :
    (1 : ℤ) ≤ 4 ∧
    pMilk ∈ (get_consumption_patterns (fun _ => 1) milkRows 14 3 60 90).products ∧
    passes_min_confidence none pMilk = true ∧
    ((4 : ℤ) : ℚ) < pMilk.days_until_needed ∧
    pMilk.days_until_needed ≤ ((4 : ℤ) : ℚ) * 2 ∧
    shopping_list_item 4 pMilk ∈
      (generate_shopping_list (fun _ => 1) milkRows 14 4 none 3 60 90).might_need_soon := by
  have hp : pMilk ∈ (get_consumption_patterns (fun _ => 1) milkRows 14 3 60 90).products := by
    rw [milk_products_eq]
    exact List.mem_singleton.mpr rfl
  have hlo : ((4 : ℤ) : ℚ) < pMilk.days_until_needed := by
    rw [pMilk_days_until_needed]
    norm_num
  have hhi : pMilk.days_until_needed ≤ ((4 : ℤ) : ℚ) * 2 := by
    rw [pMilk_days_until_needed]
    norm_num
  exact ⟨by norm_num, hp, rfl, hlo, hhi,
    (urgency_partition (fun _ => 1) milkRows 14 4 none 3 60 90 (by norm_num) pMilk hp
      rfl).2.1 ⟨hlo, hhi⟩⟩

/-! ### C6 -/

/-- The pattern computed for two purchases 20000 days apart: its
`days_until_needed` is the 9999 sentinel. -/
def pBig : ProductConsumptionPattern :=
  calculate_consumption_pattern (fun _ => 1) "X" [evEarly, evLate] 20000

theorem pBig_days_until_needed : pBig.days_until_needed = 9999 := by
  norm_num [pBig, calculate_consumption_pattern, consumption_pattern_of_sorted,
    List.insertionSort, List.orderedInsert, dateLE, evEarly, evLate, pymedian]

theorem fmtFixed_9999 : fmtFixed 0 (9999 : ℚ) = "9999" := by
  have hb : bankersRound ((9999 : ℚ) * 10 ^ 0) = 9999 := by
    rw [pow_zero, mul_one, show (9999 : ℚ) = ((9999 : ℤ) : ℚ) by norm_num]
    exact bankersRound_intCast 9999
  simp only [fmtFixed, hb, if_neg (show ¬ (9999 : ℚ) < 0 by norm_num)]
  rfl

/-- C6 counterexample: a computed pattern at the 9999 sentinel has
`days_until_needed > 4`, yet its urgency message is the fourth,
cannot-predict tier rather than a rounded-to-integer day estimate — the
message chain has four tiers, not three. -/
theorem explanation_three_tier_cex :
    pBig.days_until_needed > 4 ∧
    urgencyLine pBig ∈ generate_prediction_explanation_lines pBig ∧
    urgencyLine pBig =
      "Unable to predict when you\x27ll need more (insufficient data)." ∧
    urgencyLine pBig ≠
      "Estimated to need restocking in about " ++ fmtFixed 0 pBig.days_until_needed
        ++ " days." := by
  have h2 : urgencyLine pBig =
      "Unable to predict when you\x27ll need more (insufficient data)." := by
    unfold urgencyLine
    rw [if_pos (by rw [pBig_days_until_needed])]
  refine ⟨by rw [pBig_days_until_needed]; norm_num, ?_, h2, ?_⟩
  · unfold generate_prediction_explanation_lines
    simp
  · rw [h2, pBig_days_until_needed, fmtFixed_9999]
    decide

/-- C6 (amended): the urgency message of the explanation has four tiers: at
the 9999 sentinel it reports that no prediction is possible; below the
sentinel, `days_until_needed ≤ 0` gives the restock-now message, values in
`(0, 4]` give an explicit one-decimal day count, and values above 4 give a
rounded-to-integer day estimate. -/
theorem explanation_urgency_tiers (p : ProductConsumptionPattern) :
    (p.days_until_needed ≥ 9999 →
      "Unable to predict when you\x27ll need more (insufficient data)." ∈
        generate_prediction_explanation_lines p) ∧
    (¬ p.days_until_needed ≥ 9999 → p.days_until_needed ≤ 0 →
      "You likely need to restock NOW." ∈ generate_prediction_explanation_lines p) ∧
    (¬ p.days_until_needed ≥ 9999 → 0 < p.days_until_needed → p.days_until_needed ≤ 4 →
      ("Estimated to need restocking in " ++ fmtFixed 1 p.days_until_needed ++ " days.") ∈
        generate_prediction_explanation_lines p) ∧
    (¬ p.days_until_needed ≥ 9999 → 4 < p.days_until_needed →
      ("Estimated to need restocking in about " ++ fmtFixed 0 p.days_until_needed
        ++ " days.") ∈ generate_prediction_explanation_lines p) := by
  have hmem : urgencyLine p ∈ generate_prediction_explanation_lines p := by
    unfold generate_prediction_explanation_lines
    simp
  refine ⟨fun h1 => ?_, fun h1 h2 => ?_, fun h1 h2 h3 => ?_, fun h1 h2 => ?_⟩
  · have he : urgencyLine p =
        "Unable to predict when you\x27ll need more (insufficient data)." := by
      unfold urgencyLine
      rw [if_pos h1]
    rw [← he]
    exact hmem
  · have he : urgencyLine p = "You likely need to restock NOW." := by
      unfold urgencyLine
      rw [if_neg h1, if_pos h2]
    rw [← he]
    exact hmem
  · have he : urgencyLine p =
        "Estimated to need restocking in " ++ fmtFixed 1 p.days_until_needed ++ " days." := by
      unfold urgencyLine
      rw [if_neg h1, if_neg (not_le.mpr h2), if_pos h3]
    rw [← he]
    exact hmem
  · have he : urgencyLine p =
        "Estimated to need restocking in about " ++ fmtFixed 0 p.days_until_needed
          ++ " days." := by
      unfold urgencyLine
      rw [if_neg h1, if_neg (not_le.mpr (lt_trans (by norm_num) h2)),
        if_neg (not_le.mpr h2)]
    rw [← he]
    exact hmem

/-- A bare pattern with `days_until_needed = 3`, in the explicit-count tier. -/
def pTier : ProductConsumptionPattern :=
  { product_name := "T", product_id := none, purchase_count := 0,
    total_quantity_purchased := 0, median_quantity_per_purchase := 0,
    median_interval_days := 0, weighted_avg_interval_days := 0,
    consumption_rate_per_day := 0, last_purchase_date := 0, days_since_last_purchase := 0,
    estimated_inventory := 0, days_until_needed := 3, median_price := 0, confidence := 0 }

/-- Witness for `explanation_urgency_tiers` at a concrete input. -/
theorem explanation_urgency_tiers_witness :
    ¬ (pTier.days_until_needed ≥ 9999) ∧ 0 < pTier.days_until_needed ∧
    pTier.days_until_needed ≤ 4 ∧
    ("Estimated to need restocking in " ++ fmtFixed 1 pTier.days_until_needed ++ " days.") ∈
      generate_prediction_explanation_lines pTier := by
  have h1 : ¬ (pTier.days_until_needed ≥ 9999) := by norm_num [pTier]
  have h2 : (0 : ℚ) < pTier.days_until_needed := by norm_num [pTier]
  have h3 : pTier.days_until_needed ≤ 4 := by norm_num [pTier]
  exact ⟨h1, h2, h3, (explanation_urgency_tiers pTier).2.2.1 h1 h2 h3⟩

/-! ### C7 -/

/-- Two purchases of one product 31 days apart, giving a pattern whose
`days_until_needed` is 31. -/
def wideRows : List ReceiptRow :=
  [ { product_name := "Jam", product_id := none, quantity := some 1, unit_price := none,
      receipt_id := "j0", transaction_moment := 0 },
    { product_name := "Jam", product_id := none, quantity := some 1, unit_price := none,
      receipt_id := "j1", transaction_moment := 31 } ]

/-- The event of the first `wideRows` row. -/
def jev0 : PurchaseEvent :=
  { date := 0, quantity := 1, unit_price := none, receipt_id := "j0", product_id := none }

/-- The event of the second `wideRows` row. -/
def jev1 : PurchaseEvent :=
  { date := 31, quantity := 1, unit_price := none, receipt_id := "j1", product_id := none }

/-- The pattern the pipeline computes for `wideRows` at `now = 31`. -/
def pJam : ProductConsumptionPattern :=
  calculate_consumption_pattern (fun _ => 1) "Jam" [jev0, jev1] 31

theorem wideRows_grouped :
    get_product_purchase_history wideRows 1 = [("Jam", [jev0, jev1])] := by
  norm_num [get_product_purchase_history, addRowToProducts, rowEvent, wideRows, jev0, jev1]

theorem pJam_sorted :
    ([jev0, jev1] : List PurchaseEvent).insertionSort dateLE = [jev0, jev1] := by
  norm_num [List.insertionSort, List.orderedInsert, dateLE, jev0, jev1]

set_option maxHeartbeats 1000000 in
theorem pJam_days_until_needed : pJam.days_until_needed = 31 := by
  rw [pJam, calculate_consumption_pattern, pJam_sorted]
  norm_num [consumption_pattern_of_sorted, pymedian, List.insertionSort,
    List.orderedInsert, jev0, jev1]

set_option maxHeartbeats 1000000 in
theorem pJam_included : should_include_product pJam 1 60 90 = true := by
  have hpc : pJam.purchase_count = 2 := by
    rw [pJam, calculate_consumption_pattern, pJam_sorted]
    norm_num [consumption_pattern_of_sorted]
  have hmi : pJam.median_interval_days = 31 := by
    rw [pJam, calculate_consumption_pattern, pJam_sorted]
    norm_num [consumption_pattern_of_sorted, pymedian, List.insertionSort,
      List.orderedInsert, jev0, jev1]
  have hds : pJam.days_since_last_purchase = 0 := by
    rw [pJam, calculate_consumption_pattern, pJam_sorted]
    norm_num [consumption_pattern_of_sorted, jev0, jev1]
  unfold should_include_product
  rw [hpc, hmi, hds]
  norm_num

theorem jam_products_eq :
    (get_consumption_patterns (fun _ => 1) wideRows 31 1 60 90).products = [pJam] := by
  show List.insertionSort needLE
      (((get_product_purchase_history wideRows 1).map
        (fun kv => calculate_consumption_pattern (fun _ => 1) kv.1 kv.2 31)).filter
        (fun p => should_include_product p 1 60 90)) = [pJam]
  rw [wideRows_grouped]
  simp only [List.map_cons, List.map_nil]
  rw [show calculate_consumption_pattern (fun _ => 1) "Jam" [jev0, jev1] 31 = pJam from rfl]
  rw [List.filter_cons, pJam_included]
  norm_num [List.insertionSort, List.orderedInsert]

/-- C7 counterexample: `days_ahead = 31` lies outside the documented 1-30
range, yet `generate_shopping_list` neither rejects nor clamps it: the
pattern with `days_until_needed = 31` is classified NEEDED against the raw
31, whereas with the in-range value 30 (what clamping would produce) it is
not; the out-of-range horizon is also echoed verbatim. -/
theorem core_out_of_range_cex :
    (generate_shopping_list (fun _ => 1) wideRows 31 31 none 1 60 90).needed_items.length
      = 1 ∧
    (generate_shopping_list (fun _ => 1) wideRows 31 30 none 1 60 90).needed_items.length
      = 0 ∧
    (generate_shopping_list (fun _ => 1) wideRows 31 31 none 1 60 90).planning_horizon_days
      = 31 := by
  have hu31 : urgency_of 31 pJam = UrgencyLevel.needed :=
    urgency_of_needed (by rw [pJam_days_until_needed]; norm_num)
  have hu30 : urgency_of 30 pJam = UrgencyLevel.soon :=
    urgency_of_soon (by rw [pJam_days_until_needed]; norm_num)
      (by rw [pJam_days_until_needed]; norm_num)
  refine ⟨?_, ?_, rfl⟩
  · rw [generate_needed_items_eq, jam_products_eq]
    simp [passes_min_confidence, List.filter_cons, hu31, List.insertionSort,
      List.orderedInsert]
  · rw [generate_needed_items_eq, jam_products_eq]
    simp [passes_min_confidence, List.filter_cons, hu30]

/-- C7 (amended): the core performs no range validation: an out-of-range
`days_ahead` (here any value above the documented maximum of 30) is used
as-is — it is echoed as the planning horizon and drives the urgency
classification; range enforcement lives only in the HTTP route layer's
query-parameter bounds. -/
theorem core_accepts_out_of_range (w : ℚ → ℚ) (rows : List ReceiptRow) (now : ℚ)
    (minc : Option ℚ) (minp : ℕ) (mai mdsl : ℚ) (da : ℤ) (hda : 30 < da) :
    (generate_shopping_list w rows now da minc minp mai mdsl).planning_horizon_days = da ∧
    ∀ p ∈ (get_consumption_patterns w rows now minp mai mdsl).products,
      passes_min_confidence minc p = true → p.days_until_needed ≤ (da : ℚ) →
      shopping_list_item da p ∈
        (generate_shopping_list w rows now da minc minp mai mdsl).needed_items := by
  refine ⟨rfl, ?_⟩
  intro p hp hc h1
  rw [generate_needed_items_eq, (List.perm_insertionSort itemLE _).mem_iff]
  apply List.mem_map_of_mem
  apply List.mem_filter.mpr
  refine ⟨List.mem_filter.mpr ⟨hp, hc⟩, ?_⟩
  rw [urgency_of_needed h1]
  simp

/-- Witness for `core_accepts_out_of_range` at a concrete input. -/
theorem core_accepts_out_of_range_witness :
    (30 : ℤ) < 31 ∧
    (generate_shopping_list (fun _ => 1) wideRows 31 31 none 1 60 90).planning_horizon_days
      = 31 ∧
    pJam ∈ (get_consumption_patterns (fun _ => 1) wideRows 31 1 60 90).products ∧
    passes_min_confidence none pJam = true ∧
    pJam.days_until_needed ≤ ((31 : ℤ) : ℚ) ∧
    shopping_list_item 31 pJam ∈
      (generate_shopping_list (fun _ => 1) wideRows 31 31 none 1 60 90).needed_items := by
  have hp : pJam ∈ (get_consumption_patterns (fun _ => 1) wideRows 31 1 60 90).products := by
    rw [jam_products_eq]
    exact List.mem_singleton.mpr rfl
  have h1 : pJam.days_until_needed ≤ ((31 : ℤ) : ℚ) := by
    rw [pJam_days_until_needed]
    norm_num
  have h := core_accepts_out_of_range (fun _ => 1) wideRows 31 none 1 60 90 31 (by norm_num)
  exact ⟨by norm_num, h.1, hp, rfl, h1, h.2 pJam hp rfl h1⟩

end AhApi
